import Mathlib

/-!
Verification development for the submission-intake pipeline of the
easy-form-snap repository (supabase/functions/submit-form/index.ts).

The TypeScript source is shallowly embedded: JSON payload values become an
inductive `JsonVal`, the payload object becomes an association list, the
process-local rate-limiting `Map` becomes an association list `Cache`, and
`Date.now()` becomes an explicit `now : Int` parameter in milliseconds.
External collaborators (database inserts, the mail provider) are modelled by
explicit outcome oracles passed to the handler; their invocations are
recorded in the handler output so that effect-level properties can be stated.
-/

set_option autoImplicit false

namespace EasyFormSnap

/-- A scalar JSON value as submitted in a form payload. -/
inductive JsonVal where
  | str (s : String)
  | num (n : Int)
  | bool (b : Bool)
  | null
deriving DecidableEq, Repr

/-- A form payload: the string-keyed object sent by the embed script.
JS objects have unique keys; the list holds the entries in object order. -/
abbrev Payload := List (String × JsonVal)

/-- The per-origin submission-history map `submissionCache : Map<string, number[]>`. -/
abbrev Cache := List (String × List Int)

/-- JavaScript truthiness of a `JsonVal` (used by `if (data.__honeypot)` etc.). -/
def truthy : JsonVal → Bool
  | .str s => !(s == "")
  | .num n => !(n == 0)
  | .bool b => b
  | .null => false

/-- Field access `data[k]` on a payload object. -/
def lookupField (data : Payload) (k : String) : Option JsonVal :=
  match data with
  | [] => none
  | kv :: rest => if kv.1 == k then some kv.2 else lookupField rest k

/-- Maximal leading decimal-digit run of a character list, as a number;
`none` when there is no leading digit (`parseInt` returns NaN then). -/
def parseDigits (l : List Char) : Option Nat :=
  let ds := l.takeWhile Char.isDigit
  if ds = [] then none
  else some (ds.foldl (fun acc c => acc * 10 + (c.toNat - 48)) 0)

/-- The source call `parseInt` as applied to a payload value: an optional sign followed by
the maximal digit prefix; a numeric value is returned as is; anything that
parses to NaN is `none` (the source then compares `NaN < 2`, which is
false, so the timing check cannot fire).  Leading-whitespace skipping is
not modelled; the embed script sends plain digit strings. -/
def parseIntJs : JsonVal → Option Int
  | .str s =>
      match s.data with
      | '-' :: rest => (parseDigits rest).map (fun n => -(n : Int))
      | '+' :: rest => (parseDigits rest).map (fun n => (n : Int))
      | l => (parseDigits l).map (fun n => (n : Int))
  | .num n => some n
  | _ => none

/-- The honeypot guard `data.__honeypot && data.__honeypot !== ''`. -/
def honeypotFilled (data : Payload) : Bool :=
  match lookupField data "__honeypot" with
  | some v => truthy v && !(v == JsonVal.str "")
  | none => false

/-- The timing guard: `data.__timestamp` is truthy and
`(now - parseInt(data.__timestamp)) / 1000 < 2`.  Division by 1000 and the
float comparison are folded into the integer comparison `now - ts < 2000`,
which is equivalent for integer millisecond clocks. -/
def tooFast (data : Payload) (now : Int) : Bool :=
  match lookupField data "__timestamp" with
  | some v =>
      truthy v &&
        (match parseIntJs v with
         | some ts => decide (now - ts < 2000)
         | none => false)
  | none => false

/-- Model of `submissionCache.get(ip)` (with `has` folded in: `none` means absent). -/
def cacheGet : Cache → String → Option (List Int)
  | [], _ => none
  | kv :: rest, ip => if kv.1 == ip then some kv.2 else cacheGet rest ip

/-- Model of `submissionCache.set(ip, v)`: replace the entry in place, or append a new
one, exactly as a JS `Map` does. -/
def cacheSet : Cache → String → List Int → Cache
  | [], ip, v => [(ip, v)]
  | kv :: rest, ip, v =>
      if kv.1 == ip then (ip, v) :: rest else kv :: cacheSet rest ip v

/-- Whether one of the patterns `https://` or `http://` starts at the head
of the list.  At most one of the two can match at a given position. -/
def isUrlStart (l : List Char) : Bool :=
  l.take 8 == "https://".data || l.take 7 == "http://".data

/-- Count of matches of the regex `https?:\/\/` in a string under the `g`
flag.  Matches of these two patterns can never overlap (the character `h`
occurs only at offset 0 of either pattern), so the left-to-right
skip-the-match scan of `String.prototype.match` counts exactly the
positions at which a pattern starts, which is what this computes. -/
def countUrls : List Char → Nat
  | [] => 0
  | c :: rest => (if isUrlStart (c :: rest) then 1 else 0) + countUrls rest

/-- Model of `Object.values(data).filter(v => typeof v === 'string')`. -/
def stringValues (data : Payload) : List String :=
  data.filterMap (fun kv =>
    match kv.2 with
    | .str s => some s
    | _ => none)

/-- Model of `values.some(v => (v.match(/https?:\/\//g) || []).length > 2)`. -/
def hasMultipleUrls (data : Payload) : Bool :=
  (stringValues data).any (fun v => decide (2 < countUrls v.data))

/-- The spam verdict returned by `detectSpam`. -/
structure SpamResult where
  isSpam : Bool
  reason : String
  signals : List (String × Int)
deriving DecidableEq, Repr

/-- Model of `signals.reduce((sum, s) => sum + s.score, 0)`. -/
def totalScore (signals : List (String × Int)) : Int :=
  (signals.map (fun s => s.2)).foldl (fun a b => a + b) 0

/-- The tail of `detectSpam` after every decisive check has passed: the
suspicious-pattern scan, the score sum, and the threshold comparison.  The
cache is untouched by this phase, so the result depends on the payload only. -/
def contentResult (data : Payload) : SpamResult :=
  let signals : List (String × Int) :=
    if hasMultipleUrls data then [("multiple_urls", 60)] else []
  let isSpam := decide (70 ≤ totalScore signals)
  ⟨isSpam, if isSpam then "Spam score threshold exceeded" else "", signals⟩

/-- Whether the rate check fires: the origin has an entry and at least 3 of
its recorded timestamps lie strictly within the trailing 5-minute window. -/
def rateBlocked (ip : String) (now : Int) (cache : Cache) : Bool :=
  match cacheGet cache ip with
  | some l =>
      decide (3 ≤ (l.filter (fun ts => decide (now - 5 * 60 * 1000 < ts))).length)
  | none => false

/-- The IP rate-limiting block of `detectSpam` followed by the content phase.
On the non-blocked path the cache entry is replaced by the in-window
timestamps with `now` appended (`timestamps.push(now); set(ip, timestamps)`);
on the blocked path the cache is left untouched. -/
def ratePhase (data : Payload) (ip : String) (now : Int) (cache : Cache) :
    SpamResult × Cache :=
  let fiveMinutesAgo := now - 5 * 60 * 1000
  match cacheGet cache ip with
  | some l =>
      let timestamps := l.filter (fun ts => decide (fiveMinutesAgo < ts))
      if 3 ≤ timestamps.length then
        (⟨true, "Too many submissions from this IP", [("rate_limit_exceeded", 90)]⟩, cache)
      else
        (contentResult data, cacheSet cache ip (timestamps ++ [now]))
  | none => (contentResult data, cacheSet cache ip [now])

/-- The function `detectSpam(data, ip)` from submit-form/index.ts, with the ambient
mutable state (`Date.now()` and `submissionCache`) passed explicitly.
Returns the verdict together with the cache after the call. -/
def detectSpam (data : Payload) (ip : String) (now : Int) (cache : Cache) :
    SpamResult × Cache :=
  if honeypotFilled data then
    (⟨true, "Honeypot field was filled", [("honeypot_filled", 100)]⟩, cache)
  else if tooFast data now then
    (⟨true, "Form submitted too quickly", [("too_fast", 80)]⟩, cache)
  else
    ratePhase data ip now cache

/-- A row of the `forms` table, restricted to the columns the handler reads. -/
structure FormRec where
  id : String
  name : String
  is_active : Bool
  notification_email : Option String
deriving DecidableEq, Repr

/-- The form lookup
`from('forms').select('*').eq('id', formId).eq('is_active', true).single()`:
`single()` succeeds exactly when the filtered result set has one row. -/
def lookupForm (forms : List FormRec) (formId : String) : Option FormRec :=
  match forms.filter (fun f => f.id == formId && f.is_active) with
  | [f] => some f
  | _ => none

/-- JS truthiness of `form.notification_email` (null or empty string is falsy). -/
def notifTruthy : Option String → Bool
  | some s => !(s == "")
  | none => false

/-- The submission row the handler asks the database to insert. -/
structure SubmissionRow where
  form_id : String
  payload : Payload
  ip : String
  user_agent : String
  is_spam : Bool
  spam_reason : String
deriving DecidableEq, Repr

/-- An `email_logs` row as written by `sendNotificationEmail`.  The
`provider_response` JSON body is abstracted to the string it carries
(the provider data on success, the captured error message on failure). -/
structure EmailLogRow where
  submission_id : String
  status : String
  provider_response : String
deriving DecidableEq, Repr

/-- Outcome of the `resend.emails.send` call: a provider response, an error
value in the returned `error` field, or a thrown exception. -/
inductive SendOutcome where
  | ok (resp : String)
  | errVal (msg : String)
  | raise (msg : String)
deriving DecidableEq, Repr

/-- Outcome of an awaited `email_logs` insert: it completes, or it throws. -/
inductive InsOutcome where
  | ok
  | raise (msg : String)
deriving DecidableEq, Repr

/-- External-world outcomes for one intake call: the submission insert
(`some id` on success), the `spam_signals` insert (`false` = the call
returned an error object; the source never inspects it), the mail send, the
`email_logs` insert inside the `try` block, and the `email_logs` insert
inside the `catch` block. -/
structure Oracles where
  submissionInsert : Option String
  signalInsertOk : Bool
  send : SendOutcome
  ins1 : InsOutcome
  ins2 : InsOutcome
deriving DecidableEq, Repr

/-- Model of `sendNotificationEmail(formName, notificationEmail, submissionData, id)`:
returns the `email_logs` rows actually recorded (an insert that throws
records nothing), the `console.error` messages emitted, and whether the
returned promise is rejected (only when the catch-block insert itself
throws). -/
def sendNotificationEmail (subId : String)
    (send : SendOutcome) (ins1 ins2 : InsOutcome) :
    List EmailLogRow × List String × Bool :=
  match send with
  | .raise m =>
      match ins2 with
      | .ok => ([⟨subId, "failed", m⟩], ["Error in email notification"], false)
      | .raise _ => ([], ["Error in email notification"], true)
  | .ok r =>
      match ins1 with
      | .ok => ([⟨subId, "sent", r⟩], [], false)
      | .raise m =>
          match ins2 with
          | .ok => ([⟨subId, "failed", m⟩], ["Error in email notification"], false)
          | .raise _ => ([], ["Error in email notification"], true)
  | .errVal e =>
      match ins1 with
      | .ok => ([⟨subId, "failed", e⟩], ["Error sending email"], false)
      | .raise m =>
          match ins2 with
          | .ok => ([⟨subId, "failed", m⟩], ["Error in email notification"], false)
          | .raise _ => ([], ["Error in email notification"], true)

/-- The caller-visible response of the handler. -/
inductive HandlerResp where
  | badRequest
  | notFound
  | persistenceError
  | success (submissionId : String)
deriving DecidableEq, Repr

/-- HTTP status of each response shape. -/
def respStatus : HandlerResp → Nat
  | .badRequest => 400
  | .notFound => 404
  | .persistenceError => 500
  | .success _ => 200

/-- Everything one intake call does: the response plus the recorded external
effects and the cache after the call. -/
structure HandlerOutput where
  resp : HandlerResp
  submissionInserts : List SubmissionRow
  signalInserts : List (String × List (String × Int))
  emailCalls : Nat
  emailLogRows : List EmailLogRow
  errorLogs : List String
  cache : Cache
deriving DecidableEq, Repr

/-- Model of `delete cleanPayload.__honeypot; delete cleanPayload.__timestamp` on a
spread copy of the payload. -/
def cleanPayload (data : Payload) : Payload :=
  data.filter (fun kv => !(kv.1 == "__honeypot") && !(kv.1 == "__timestamp"))

/-- The `serve` request handler of submit-form/index.ts, after request
parsing: `formId` is the last path segment (empty when missing), `data` the
parsed JSON body, `ip` and `ua` the caller headers, `now` the clock and
`cache` the process-local rate map.  External calls are resolved through
`o`. -/
def handleSubmission (forms : List FormRec) (formId : String) (data : Payload)
    (ip ua : String) (now : Int) (cache : Cache) (o : Oracles) : HandlerOutput :=
  if formId == "" then
    ⟨.badRequest, [], [], 0, [], [], cache⟩
  else
    match lookupForm forms formId with
    | none => ⟨.notFound, [], [], 0, [], [], cache⟩
    | some form =>
        let sc := detectSpam data ip now cache
        let row : SubmissionRow :=
          ⟨formId, cleanPayload data, ip, ua, sc.1.isSpam, sc.1.reason⟩
        match o.submissionInsert with
        | none =>
            ⟨.persistenceError, [row], [], 0, [], ["Error inserting submission"], sc.2⟩
        | some id =>
            let sigIns : List (String × List (String × Int)) :=
              if sc.1.signals.isEmpty then [] else [(id, sc.1.signals)]
            if !sc.1.isSpam && notifTruthy form.notification_email then
              let e := sendNotificationEmail id o.send o.ins1 o.ins2
              let elogs := if e.2.2 then e.2.1 ++ ["Background email error"] else e.2.1
              ⟨.success id, [row], sigIns, 1, e.1, elogs, sc.2⟩
            else
              ⟨.success id, [row], sigIns, 0, [], [], sc.2⟩

/-! Concrete fixtures used to instantiate the theorems below. -/

/-- A one-form database with an active form that has a notification address. -/
def demoForms : List FormRec :=
  [⟨"f1", "Contact", true, some "owner@example.com"⟩]

/-- A plain legitimate payload. -/
def demoPayload : Payload := [("name", JsonVal.str "Bob")]

/-- A payload whose honeypot field was filled by a bot. -/
def demoSpamPayload : Payload :=
  [("name", JsonVal.str "Bob"), ("__honeypot", JsonVal.str "gotcha")]

/-- A payload with three absolute URLs in one field. -/
def demoUrlPayload : Payload :=
  [("msg", JsonVal.str "http://a http://b http://c")]

/-- Oracles where every external call succeeds. -/
def demoOracles : Oracles := ⟨some "sub1", true, .ok "resp", .ok, .ok⟩

/-- Oracles where the spam-signals insert returns an error object. -/
def demoOracleSigFail : Oracles := ⟨some "sub1", false, .ok "resp", .ok, .ok⟩

/-! Helper lemmas shared by the claim theorems. -/

theorem cacheGet_cacheSet (c : Cache) (ip : String) (v : List Int) :
    cacheGet (cacheSet c ip v) ip = some v := by
  induction c with
  | nil => simp [cacheSet, cacheGet]
  | cons kv rest ih =>
      by_cases h : kv.1 = ip
      · simp [cacheSet, cacheGet, h]
      · simp [cacheSet, cacheGet, h, ih]

theorem detectSpam_not_decisive (data : Payload) (ip : String) (now : Int)
    (cache : Cache) (hh : honeypotFilled data = false)
    (ht : tooFast data now = false) :
    detectSpam data ip now cache = ratePhase data ip now cache := by
  simp [detectSpam, hh, ht]

theorem ratePhase_blocked (data : Payload) (ip : String) (now : Int)
    (cache : Cache) (l : List Int) (hl : cacheGet cache ip = some l)
    (h3 : 3 ≤ (l.filter (fun ts => decide (now - 5 * 60 * 1000 < ts))).length) :
    ratePhase data ip now cache =
      (⟨true, "Too many submissions from this IP", [("rate_limit_exceeded", 90)]⟩,
        cache) := by
  unfold ratePhase
  rw [hl]
  exact if_pos h3

theorem ratePhase_allowed (data : Payload) (ip : String) (now : Int)
    (cache : Cache) (l : List Int) (hl : cacheGet cache ip = some l)
    (h3 : ¬ 3 ≤ (l.filter (fun ts => decide (now - 5 * 60 * 1000 < ts))).length) :
    ratePhase data ip now cache =
      (contentResult data,
        cacheSet cache ip
          (l.filter (fun ts => decide (now - 5 * 60 * 1000 < ts)) ++ [now])) := by
  unfold ratePhase
  rw [hl]
  exact if_neg h3

theorem ratePhase_fresh (data : Payload) (ip : String) (now : Int)
    (cache : Cache) (hl : cacheGet cache ip = none) :
    ratePhase data ip now cache =
      (contentResult data, cacheSet cache ip [now]) := by
  unfold ratePhase
  rw [hl]

theorem detectSpam_accum (data : Payload) (ip : String) (now : Int)
    (cache : Cache) (hh : honeypotFilled data = false)
    (ht : tooFast data now = false) (hr : rateBlocked ip now cache = false) :
    (detectSpam data ip now cache).1 = contentResult data := by
  rw [detectSpam_not_decisive data ip now cache hh ht]
  cases hc : cacheGet cache ip with
  | none => rw [ratePhase_fresh data ip now cache hc]
  | some l =>
      have hr2 : ¬ 3 ≤ (l.filter (fun ts => decide (now - 5 * 60 * 1000 < ts))).length := by
        unfold rateBlocked at hr
        rw [hc] at hr
        simpa using hr
      rw [ratePhase_allowed data ip now cache l hc hr2]

theorem contentResult_not_spam (data : Payload) :
    (contentResult data).isSpam = false ∧ (contentResult data).reason = "" := by
  unfold contentResult
  by_cases hu : hasMultipleUrls data <;> simp [hu, totalScore]

theorem lookupField_eq_none (l : Payload) (k : String)
    (h : ∀ kv ∈ l, kv.1 ≠ k) : lookupField l k = none := by
  induction l with
  | nil => rfl
  | cons kv rest ih =>
      have hk : (kv.1 == k) = false := by
        simpa using h kv (by simp)
      simp only [lookupField, hk, Bool.false_eq_true, if_false]
      exact ih (fun kv2 hm => h kv2 (by simp [hm]))

theorem handle_submission_row (forms : List FormRec) (formId : String)
    (data : Payload) (ip ua : String) (now : Int) (cache : Cache) (o : Oracles)
    (f : FormRec) (h0 : formId ≠ "") (h1 : lookupForm forms formId = some f) :
    (handleSubmission forms formId data ip ua now cache o).submissionInserts =
      [⟨formId, cleanPayload data, ip, ua, (detectSpam data ip now cache).1.isSpam,
        (detectSpam data ip now cache).1.reason⟩] := by
  have h0b : (formId == "") = false := by simp [h0]
  unfold handleSubmission
  simp only [h0b, Bool.false_eq_true, if_false, h1]
  cases o.submissionInsert with
  | none => rfl
  | some id =>
      cases hg : (!(detectSpam data ip now cache).1.isSpam
          && notifTruthy f.notification_email) <;> simp [hg]

theorem handle_fields (forms : List FormRec) (formId : String) (data : Payload)
    (ip ua : String) (now : Int) (cache : Cache) (o : Oracles) (f : FormRec)
    (id : String) (h0 : formId ≠ "") (h1 : lookupForm forms formId = some f)
    (h2 : o.submissionInsert = some id) :
    (handleSubmission forms formId data ip ua now cache o).resp
        = HandlerResp.success id
    ∧ (handleSubmission forms formId data ip ua now cache o).signalInserts
        = (if (detectSpam data ip now cache).1.signals.isEmpty then []
           else [(id, (detectSpam data ip now cache).1.signals)])
    ∧ ((!(detectSpam data ip now cache).1.isSpam
          && notifTruthy f.notification_email) = true →
        (handleSubmission forms formId data ip ua now cache o).emailCalls = 1
        ∧ (handleSubmission forms formId data ip ua now cache o).emailLogRows
            = (sendNotificationEmail id o.send o.ins1 o.ins2).1)
    ∧ ((!(detectSpam data ip now cache).1.isSpam
          && notifTruthy f.notification_email) = false →
        (handleSubmission forms formId data ip ua now cache o).emailCalls = 0
        ∧ (handleSubmission forms formId data ip ua now cache o).emailLogRows
            = []) := by
  have h0b : (formId == "") = false := by simp [h0]
  unfold handleSubmission
  simp only [h0b, Bool.false_eq_true, if_false, h1, h2]
  cases hg : (!(detectSpam data ip now cache).1.isSpam
      && notifTruthy f.notification_email) <;> simp [hg]

/-! The claim theorems. -/

/-- Claim C1: a payload whose honeypot field is present and non-empty is
classified spam immediately, with reason "Honeypot field was filled" and
signal list exactly honeypot_filled at score 100, for any other field
contents; the later checks are skipped and the per-origin history is
returned unchanged. -/
theorem honeypot_decisive (data : Payload) (ip : String) (now : Int)
    (cache : Cache) (s : String)
    (h1 : lookupField data "__honeypot" = some (JsonVal.str s)) (h2 : s ≠ "") :
    detectSpam data ip now cache =
      (⟨true, "Honeypot field was filled", [("honeypot_filled", 100)]⟩, cache) := by
  have hf : honeypotFilled data = true := by
    simp [honeypotFilled, h1, truthy, h2]
  simp [detectSpam, hf]

/-- Witness for C1 at a concrete bot payload. -/
theorem honeypot_decisive_witness :
    detectSpam demoSpamPayload "1.2.3.4" 1000000 [] =
      (⟨true, "Honeypot field was filled", [("honeypot_filled", 100)]⟩, []) :=
  honeypot_decisive demoSpamPayload "1.2.3.4" 1000000 [] "gotcha"
    (by decide) (by decide)

/-- Claim C2: with no filled honeypot, a client timestamp within 2 seconds
of now (elapsed milliseconds below 2000) is classified spam with reason
"Form submitted too quickly" and signal list exactly too_fast at score 80;
when the timestamp field is absent the timing check is skipped and
evaluation continues with the rate phase. -/
theorem too_fast_decisive (data : Payload) (ip : String) (now : Int)
    (cache : Cache) (hh : honeypotFilled data = false) :
    (∀ s ts, lookupField data "__timestamp" = some (JsonVal.str s) → s ≠ "" →
        parseIntJs (JsonVal.str s) = some ts → now - ts < 2000 →
        detectSpam data ip now cache =
          (⟨true, "Form submitted too quickly", [("too_fast", 80)]⟩, cache))
    ∧ (lookupField data "__timestamp" = none →
        detectSpam data ip now cache = ratePhase data ip now cache) := by
  constructor
  · intro s ts h1 h2 h3 h4
    have htf : tooFast data now = true := by
      simp [tooFast, h1, truthy, h2, h3, h4]
    simp [detectSpam, hh, htf]
  · intro h1
    have htf : tooFast data now = false := by
      simp [tooFast, h1]
    exact detectSpam_not_decisive data ip now cache hh htf

/-- Witness for C2: a submission one second after its client timestamp. -/
theorem too_fast_decisive_witness :
    detectSpam [("__timestamp", JsonVal.str "999000")] "1.2.3.4" 1000000 [] =
      (⟨true, "Form submitted too quickly", [("too_fast", 80)]⟩, []) :=
  (too_fast_decisive [("__timestamp", JsonVal.str "999000")] "1.2.3.4" 1000000 []
      (by decide)).1 "999000" 999000 (by decide) (by decide) (by decide) (by decide)

/-- Claim C3: once honeypot and timing pass, for a fixed origin: with at
least 3 recorded timestamps inside the trailing 5-minute window the result
is spam with reason "Too many submissions from this IP" and signal list
exactly rate_limit_exceeded at score 90 and the history is unchanged; with
at most 2 in-window timestamps (or no entry) the rate check does not fire,
the verdict is the content-phase result, and the history for that origin
becomes its in-window timestamps with exactly the current time appended. -/
theorem rate_limit_boundary (data : Payload) (ip : String) (now : Int)
    (cache : Cache) (hh : honeypotFilled data = false)
    (ht : tooFast data now = false) :
    (∀ l, cacheGet cache ip = some l →
        3 ≤ (l.filter (fun ts => decide (now - 5 * 60 * 1000 < ts))).length →
        detectSpam data ip now cache =
          (⟨true, "Too many submissions from this IP", [("rate_limit_exceeded", 90)]⟩,
            cache))
    ∧ (∀ l, cacheGet cache ip = some l →
        (l.filter (fun ts => decide (now - 5 * 60 * 1000 < ts))).length ≤ 2 →
        (detectSpam data ip now cache).1 = contentResult data
        ∧ cacheGet (detectSpam data ip now cache).2 ip
            = some (l.filter (fun ts => decide (now - 5 * 60 * 1000 < ts)) ++ [now]))
    ∧ (cacheGet cache ip = none →
        (detectSpam data ip now cache).1 = contentResult data
        ∧ cacheGet (detectSpam data ip now cache).2 ip = some [now]) := by
  have hd := detectSpam_not_decisive data ip now cache hh ht
  refine ⟨?_, ?_, ?_⟩
  · intro l hl h3
    rw [hd]
    exact ratePhase_blocked data ip now cache l hl h3
  · intro l hl h2
    have h3 : ¬ 3 ≤ (l.filter (fun ts => decide (now - 5 * 60 * 1000 < ts))).length := by
      omega
    rw [hd, ratePhase_allowed data ip now cache l hl h3]
    exact ⟨rfl, cacheGet_cacheSet cache ip _⟩
  · intro hl
    rw [hd, ratePhase_fresh data ip now cache hl]
    exact ⟨rfl, cacheGet_cacheSet cache ip _⟩

/-- Witness for C3: a fourth submission with three fresh timestamps on
record is blocked and the history is unchanged. -/
theorem rate_limit_boundary_witness :
    detectSpam demoPayload "1.2.3.4" 1000000
        [("1.2.3.4", [999000, 998000, 997000])] =
      (⟨true, "Too many submissions from this IP", [("rate_limit_exceeded", 90)]⟩,
        [("1.2.3.4", [999000, 998000, 997000])]) :=
  (rate_limit_boundary demoPayload "1.2.3.4" 1000000
      [("1.2.3.4", [999000, 998000, 997000])] (by decide) (by decide)).1
    [999000, 998000, 997000] (by decide) (by decide)

/-- Claim C4: on the accumulative path the signal list is exactly
multiple_urls at score 60 when some string field holds more than 2
http or https occurrences and empty otherwise; the verdict is spam with
reason "Spam score threshold exceeded" exactly when the score total
reaches 70, and legitimate with empty reason otherwise. -/
theorem multiple_urls_threshold (data : Payload) (ip : String) (now : Int)
    (cache : Cache) (hh : honeypotFilled data = false)
    (ht : tooFast data now = false) (hr : rateBlocked ip now cache = false) :
    ((detectSpam data ip now cache).1.signals
        = if hasMultipleUrls data then [("multiple_urls", 60)] else [])
    ∧ (70 ≤ totalScore (detectSpam data ip now cache).1.signals →
        (detectSpam data ip now cache).1.isSpam = true
        ∧ (detectSpam data ip now cache).1.reason = "Spam score threshold exceeded")
    ∧ (totalScore (detectSpam data ip now cache).1.signals < 70 →
        (detectSpam data ip now cache).1.isSpam = false
        ∧ (detectSpam data ip now cache).1.reason = "") := by
  rw [detectSpam_accum data ip now cache hh ht hr]
  unfold contentResult
  by_cases hu : hasMultipleUrls data <;> simp [hu, totalScore]

/-- Witness for C4: three URLs in one field record the multiple_urls signal
but the total 60 stays below 70, so the payload is not classified spam. -/
theorem multiple_urls_threshold_witness :
    (detectSpam demoUrlPayload "1.2.3.4" 1000000 []).1.isSpam = false
    ∧ (detectSpam demoUrlPayload "1.2.3.4" 1000000 []).1.reason = "" :=
  (multiple_urls_threshold demoUrlPayload "1.2.3.4" 1000000 []
      (by decide) (by decide) (by decide)).2.2 (by decide)

/-- Claim C5: on the accumulative path multiple_urls at 60 is the only
signal detectSpam can record, so the threshold of 70 is unreachable: with
all decisive checks passing the result is never spam and carries an empty
reason, and the reason "Spam score threshold exceeded" is returned for no
input at all. -/
theorem accumulative_never_threshold (data : Payload) (ip : String)
    (now : Int) (cache : Cache) :
    (honeypotFilled data = false → tooFast data now = false →
        rateBlocked ip now cache = false →
        (detectSpam data ip now cache).1.isSpam = false
        ∧ (detectSpam data ip now cache).1.reason = "")
    ∧ (detectSpam data ip now cache).1.reason ≠ "Spam score threshold exceeded" := by
  constructor
  · intro hh ht hr
    rw [detectSpam_accum data ip now cache hh ht hr]
    exact contentResult_not_spam data
  · cases hh : honeypotFilled data with
    | true =>
        simp only [detectSpam, hh, if_true]
        show "Honeypot field was filled" ≠ "Spam score threshold exceeded"
        decide
    | false =>
        cases ht : tooFast data now with
        | true =>
            simp only [detectSpam, hh, ht, Bool.false_eq_true, if_false, if_true]
            show "Form submitted too quickly" ≠ "Spam score threshold exceeded"
            decide
        | false =>
            rw [detectSpam_not_decisive data ip now cache hh ht]
            cases hc : cacheGet cache ip with
            | some l =>
                by_cases h3 :
                    3 ≤ (l.filter (fun ts => decide (now - 5 * 60 * 1000 < ts))).length
                · rw [ratePhase_blocked data ip now cache l hc h3]
                  show "Too many submissions from this IP" ≠ "Spam score threshold exceeded"
                  decide
                · rw [ratePhase_allowed data ip now cache l hc h3]
                  show (contentResult data).reason ≠ "Spam score threshold exceeded"
                  rw [(contentResult_not_spam data).2]
                  decide
            | none =>
                rw [ratePhase_fresh data ip now cache hc]
                show (contentResult data).reason ≠ "Spam score threshold exceeded"
                rw [(contentResult_not_spam data).2]
                decide

/-- Witness for C5: a plain payload on a clean history is legitimate. -/
theorem accumulative_never_threshold_witness :
    (detectSpam demoPayload "1.2.3.4" 1000000 []).1.isSpam = false
    ∧ (detectSpam demoPayload "1.2.3.4" 1000000 []).1.reason = "" :=
  (accumulative_never_threshold demoPayload "1.2.3.4" 1000000 []).1
    (by decide) (by decide) (by decide)

/-- Claim C6: on every intake call that reaches an active form, the payload
handed to the submission insert is the raw payload with exactly the keys
__honeypot and __timestamp removed: the stored payload contains neither
control key, keeps every other key/value pair, and adds nothing — whatever
the spam verdict and whatever the insert outcome. -/
theorem stored_payload_stripped (forms : List FormRec) (formId : String)
    (data : Payload) (ip ua : String) (now : Int) (cache : Cache) (o : Oracles)
    (f : FormRec) (h0 : formId ≠ "") (h1 : lookupForm forms formId = some f) :
    ((handleSubmission forms formId data ip ua now cache o).submissionInserts.map
        (fun r => r.payload) = [cleanPayload data])
    ∧ lookupField (cleanPayload data) "__honeypot" = none
    ∧ lookupField (cleanPayload data) "__timestamp" = none
    ∧ (∀ kv, kv ∈ data → kv.1 ≠ "__honeypot" → kv.1 ≠ "__timestamp" →
        kv ∈ cleanPayload data)
    ∧ (∀ kv, kv ∈ cleanPayload data → kv ∈ data) := by
  refine ⟨?_, ?_, ?_, ?_, ?_⟩
  · rw [handle_submission_row forms formId data ip ua now cache o f h0 h1]
    rfl
  · apply lookupField_eq_none
    intro kv hm
    have hp := (List.mem_filter.mp hm).2
    simp only [Bool.and_eq_true, Bool.not_eq_true', beq_eq_false_iff_ne] at hp
    exact hp.1
  · apply lookupField_eq_none
    intro kv hm
    have hp := (List.mem_filter.mp hm).2
    simp only [Bool.and_eq_true, Bool.not_eq_true', beq_eq_false_iff_ne] at hp
    exact hp.2
  · intro kv hm hk1 hk2
    refine List.mem_filter.mpr ⟨hm, ?_⟩
    simp [hk1, hk2]
  · intro kv hm
    exact (List.mem_filter.mp hm).1

/-- Witness for C6: the end-to-end fixture stores the payload without its
control keys. -/
theorem stored_payload_stripped_witness :
    ((handleSubmission demoForms "f1" demoSpamPayload "1.2.3.4" "ua" 1000000 []
        demoOracles).submissionInserts.map (fun r => r.payload)
      = [cleanPayload demoSpamPayload])
    ∧ lookupField (cleanPayload demoSpamPayload) "__honeypot" = none :=
  have h := stored_payload_stripped demoForms "f1" demoSpamPayload "1.2.3.4" "ua"
    1000000 [] demoOracles ⟨"f1", "Contact", true, some "owner@example.com"⟩
    (by decide) rfl
  ⟨h.1, h.2.1⟩

/-- Claim C7: whenever the submission insert succeeds, the caller-visible
response is the success shape with the new submission id and status 200,
for every payload and origin — two runs differing only in what the spam
classifier decides produce identical responses, so the caller cannot learn
the verdict. -/
theorem success_response_spam_independent (forms : List FormRec)
    (formId : String) (p1 p2 : Payload) (ip1 ip2 ua1 ua2 : String) (now : Int)
    (cache : Cache) (o : Oracles) (f : FormRec) (id : String)
    (h0 : formId ≠ "") (h1 : lookupForm forms formId = some f)
    (h2 : o.submissionInsert = some id) :
    (handleSubmission forms formId p1 ip1 ua1 now cache o).resp
        = HandlerResp.success id
    ∧ (handleSubmission forms formId p2 ip2 ua2 now cache o).resp
        = (handleSubmission forms formId p1 ip1 ua1 now cache o).resp
    ∧ respStatus (handleSubmission forms formId p1 ip1 ua1 now cache o).resp
        = 200 := by
  have e1 := (handle_fields forms formId p1 ip1 ua1 now cache o f id h0 h1 h2).1
  have e2 := (handle_fields forms formId p2 ip2 ua2 now cache o f id h0 h1 h2).1
  refine ⟨e1, e2.trans e1.symm, ?_⟩
  rw [e1]
  rfl

/-- Witness for C7: a clean run and a honeypot run get the same response. -/
theorem success_response_spam_independent_witness :
    (handleSubmission demoForms "f1" demoPayload "1.2.3.4" "ua" 1000000 []
        demoOracles).resp = HandlerResp.success "sub1"
    ∧ (handleSubmission demoForms "f1" demoSpamPayload "1.2.3.4" "ua" 1000000 []
        demoOracles).resp
      = (handleSubmission demoForms "f1" demoPayload "1.2.3.4" "ua" 1000000 []
        demoOracles).resp :=
  have h := success_response_spam_independent demoForms "f1" demoPayload
    demoSpamPayload "1.2.3.4" "1.2.3.4" "ua" "ua" 1000000 [] demoOracles
    ⟨"f1", "Contact", true, some "owner@example.com"⟩ "sub1" (by decide) rfl rfl
  ⟨h.1, h.2.1⟩

/-- Claim C8: a form id that matches no row and a form id whose row has
is_active set to false produce the same not-found response with status 404,
and no submission row, signal row or email attempt is created. -/
theorem not_found_absent_or_inactive (forms : List FormRec) (formId : String)
    (data : Payload) (ip ua : String) (now : Int) (cache : Cache) (o : Oracles)
    (h0 : formId ≠ "") (h1 : ∀ f ∈ forms, f.id = formId → f.is_active = false) :
    (handleSubmission forms formId data ip ua now cache o).resp
        = HandlerResp.notFound
    ∧ respStatus (handleSubmission forms formId data ip ua now cache o).resp
        = 404
    ∧ (handleSubmission forms formId data ip ua now cache o).submissionInserts
        = []
    ∧ (handleSubmission forms formId data ip ua now cache o).signalInserts = []
    ∧ (handleSubmission forms formId data ip ua now cache o).emailCalls = 0 := by
  have hfe : forms.filter (fun f => f.id == formId && f.is_active) = [] := by
    rw [List.filter_eq_nil_iff]
    intro f hf
    simp only [Bool.and_eq_true, beq_iff_eq, not_and]
    intro hid
    rw [h1 f hf hid]
    simp
  have hlf : lookupForm forms formId = none := by
    unfold lookupForm
    rw [hfe]
  have h0b : (formId == "") = false := by simp [h0]
  unfold handleSubmission
  simp [h0b, hlf, respStatus]

/-- Witness for C8: an inactive form id is rejected as not found. -/
theorem not_found_absent_or_inactive_witness :
    (handleSubmission [⟨"f2", "Old", false, none⟩] "f2" demoPayload "1.2.3.4"
        "ua" 1000000 [] demoOracles).resp = HandlerResp.notFound
    ∧ (handleSubmission [⟨"f2", "Old", false, none⟩] "f2" demoPayload "1.2.3.4"
        "ua" 1000000 [] demoOracles).submissionInserts = [] :=
  have h := not_found_absent_or_inactive [⟨"f2", "Old", false, none⟩] "f2"
    demoPayload "1.2.3.4" "ua" 1000000 [] demoOracles (by decide) (by decide)
  ⟨h.1, h.2.2.1⟩

/-- Counterexample to claim C9 as stated: a concrete intake call whose
submission insert succeeds and whose spam_signals insert fails (the oracle
reports an error for it), yet the handler emits no log at all — the source
never inspects the result of that insert.  The failure is swallowed, but
not "swallowed with logging". -/
theorem signal_failure_unlogged_cex :
    demoOracleSigFail.signalInsertOk = false
    ∧ (handleSubmission demoForms "f1" demoSpamPayload "1.2.3.4" "ua" 1000000 []
        demoOracleSigFail).signalInserts = [("sub1", [("honeypot_filled", 100)])]
    ∧ (handleSubmission demoForms "f1" demoSpamPayload "1.2.3.4" "ua" 1000000 []
        demoOracleSigFail).resp = HandlerResp.success "sub1"
    ∧ (handleSubmission demoForms "f1" demoSpamPayload "1.2.3.4" "ua" 1000000 []
        demoOracleSigFail).errorLogs = [] := by
  refine ⟨rfl, ?_, ?_, ?_⟩ <;> rfl

/-- Claim C9 as amended: whenever the submission insert succeeds the caller
receives the success response whatever the spam-signal insert, mail send or
email-log outcomes are, so only the bad-request, not-found and persistence
errors are caller-visible; downstream failures are swallowed — but the
spam-signals insert outcome is ignored without logging (the handler output
is identical whether it fails or succeeds), only the email path logs. -/
theorem downstream_failures_swallowed (forms : List FormRec) (formId : String)
    (data : Payload) (ip ua : String) (now : Int) (cache : Cache) (o : Oracles)
    (f : FormRec) (id : String) (h0 : formId ≠ "")
    (h1 : lookupForm forms formId = some f)
    (h2 : o.submissionInsert = some id) :
    (handleSubmission forms formId data ip ua now cache o).resp
        = HandlerResp.success id
    ∧ (∀ b send ins1 ins2,
        (handleSubmission forms formId data ip ua now cache
            ⟨o.submissionInsert, b, send, ins1, ins2⟩).resp
          = HandlerResp.success id)
    ∧ (∀ b,
        handleSubmission forms formId data ip ua now cache
            ⟨o.submissionInsert, b, o.send, o.ins1, o.ins2⟩
          = handleSubmission forms formId data ip ua now cache o) := by
  refine ⟨(handle_fields forms formId data ip ua now cache o f id h0 h1 h2).1,
    ?_, ?_⟩
  · intro b send ins1 ins2
    exact (handle_fields forms formId data ip ua now cache
      ⟨o.submissionInsert, b, send, ins1, ins2⟩ f id h0 h1 h2).1
  · intro b
    cases o
    rfl

/-- Witness for C9 (amended) on the concrete fixture. -/
theorem downstream_failures_swallowed_witness :
    (handleSubmission demoForms "f1" demoPayload "1.2.3.4" "ua" 1000000 []
        demoOracleSigFail).resp = HandlerResp.success "sub1" :=
  (downstream_failures_swallowed demoForms "f1" demoPayload "1.2.3.4" "ua"
    1000000 [] demoOracleSigFail ⟨"f1", "Contact", true, some "owner@example.com"⟩
    "sub1" (by decide) rfl rfl).1

/-- Claim C10: exactly the non-spam submissions on a form with a truthy
notification address trigger one notification attempt; it records one
email_logs row — status sent with the provider response when the send and
its logging succeed, status failed with the captured error when the mail
collaborator returns an error, throws, or the logging step throws (the
fallback write in the catch block succeeding); spam submissions and forms
without an address trigger no attempt and no row; and no failure in the
dispatch reaches the caller, who still gets the success response. -/
theorem notification_emaillog_dispatch (forms : List FormRec) (formId : String)
    (data : Payload) (ip ua : String) (now : Int) (cache : Cache) (o : Oracles)
    (f : FormRec) (id : String) (h0 : formId ≠ "")
    (h1 : lookupForm forms formId = some f)
    (h2 : o.submissionInsert = some id) :
    (((detectSpam data ip now cache).1.isSpam = false
        ∧ notifTruthy f.notification_email = true) →
      (handleSubmission forms formId data ip ua now cache o).emailCalls = 1
      ∧ (∀ r, o.send = SendOutcome.ok r → o.ins1 = InsOutcome.ok →
          (handleSubmission forms formId data ip ua now cache o).emailLogRows
            = [⟨id, "sent", r⟩])
      ∧ (∀ e, o.send = SendOutcome.errVal e → o.ins1 = InsOutcome.ok →
          (handleSubmission forms formId data ip ua now cache o).emailLogRows
            = [⟨id, "failed", e⟩])
      ∧ (∀ m, o.send = SendOutcome.raise m → o.ins2 = InsOutcome.ok →
          (handleSubmission forms formId data ip ua now cache o).emailLogRows
            = [⟨id, "failed", m⟩])
      ∧ (∀ r m, o.send = SendOutcome.ok r → o.ins1 = InsOutcome.raise m →
          o.ins2 = InsOutcome.ok →
          (handleSubmission forms formId data ip ua now cache o).emailLogRows
            = [⟨id, "failed", m⟩]))
    ∧ (((detectSpam data ip now cache).1.isSpam = true
          ∨ notifTruthy f.notification_email = false) →
        (handleSubmission forms formId data ip ua now cache o).emailCalls = 0
        ∧ (handleSubmission forms formId data ip ua now cache o).emailLogRows
            = [])
    ∧ (handleSubmission forms formId data ip ua now cache o).resp
        = HandlerResp.success id := by
  have hf := handle_fields forms formId data ip ua now cache o f id h0 h1 h2
  refine ⟨?_, ?_, hf.1⟩
  · intro hg
    have hgb : (!(detectSpam data ip now cache).1.isSpam
        && notifTruthy f.notification_email) = true := by
      simp [hg.1, hg.2]
    have he := hf.2.2.1 hgb
    refine ⟨he.1, ?_, ?_, ?_, ?_⟩
    · intro r hs hi
      rw [he.2, hs, hi]
      rfl
    · intro e hs hi
      rw [he.2, hs, hi]
      rfl
    · intro m hs hi
      rw [he.2, hs]
      unfold sendNotificationEmail
      rw [hi]
    · intro r m hs hi hi2
      rw [he.2, hs, hi, hi2]
      rfl
  · intro hg
    have hgb : (!(detectSpam data ip now cache).1.isSpam
        && notifTruthy f.notification_email) = false := by
      rcases hg with hg | hg <;> simp [hg]
    exact hf.2.2.2 hgb

/-- Witness for C10: the clean fixture dispatches one email and records one
sent row. -/
theorem notification_emaillog_dispatch_witness :
    (handleSubmission demoForms "f1" demoPayload "1.2.3.4" "ua" 1000000 []
        demoOracles).emailCalls = 1
    ∧ (handleSubmission demoForms "f1" demoPayload "1.2.3.4" "ua" 1000000 []
        demoOracles).emailLogRows = [⟨"sub1", "sent", "resp"⟩] :=
  have h := notification_emaillog_dispatch demoForms "f1" demoPayload "1.2.3.4"
    "ua" 1000000 [] demoOracles ⟨"f1", "Contact", true, some "owner@example.com"⟩
    "sub1" (by decide) rfl rfl
  have hg := h.1 ⟨by decide, by decide⟩
  ⟨hg.1, hg.2.1 "resp" rfl rfl⟩

end EasyFormSnap
